import Mathlib

/-!
Verification of the real-time message-waiting subsystem (the
`wait-for-messages` tool handler) of the matrix-mcp-server repository.

The definitions below are a shallow embedding of the handler source
(`waitForMessagesHandler`, `updateInternalCursor` and the surrounding
module state).  JavaScript strings that may be `undefined` are modelled
as `Option String`; JavaScript string truthiness (`""` and `undefined`
are falsy) is modelled by `truthyS`; the `x || y` fallback idiom on
strings is modelled by `jsOrOS` / `jsOrS`.  Timestamps are natural
numbers (milliseconds).  The wire response renames `roomName` to `room`
and formats the timestamp as ISO-8601; both are injective renamings, so
the response model keeps the collected-message fields directly.
-/

namespace MatrixWait

/-- JavaScript truthiness of a `string | undefined` value:
`undefined` and the empty string are falsy. -/
def truthyS : Option String → Bool
  | none => false
  | some s => s ≠ ""

/-- JavaScript `x || y` where `x : string | undefined` and `y : string`. -/
def jsOrOS : Option String → String → String
  | none, d => d
  | some s, d => if s = "" then d else s

/-- JavaScript `x || y` on two strings. -/
def jsOrS (a b : String) : String := if a = "" then b else a

/-- A character treated as leading whitespace by JavaScript `parseInt`
(ECMAScript WhiteSpace and LineTerminator code points). -/
def isJsSpace (c : Char) : Bool :=
  c.toNat = 32 || (9 ≤ c.toNat && c.toNat ≤ 13) || c.toNat = 160 || c.toNat = 5760 ||
    (8192 ≤ c.toNat && c.toNat ≤ 8202) || c.toNat = 8232 || c.toNat = 8233 ||
    c.toNat = 8239 || c.toNat = 8287 || c.toNat = 12288 || c.toNat = 65279

/-- JavaScript `parseInt(s, 10)`: skip leading whitespace, read an
optional single `+` or `-` sign, then the longest leading run of
decimal digits, interpreted in base 10 with the sign applied; `none`
models `NaN` (no digit found). -/
def jsParseInt10 (s : String) : Option Int :=
  let t := s.toList.dropWhile isJsSpace
  let p : Bool × List Char :=
    match t with
    | '-' :: rest => (true, rest)
    | '+' :: rest => (false, rest)
    | _ => (false, t)
  let ds := p.2.takeWhile Char.isDigit
  if ds.isEmpty then none
  else
    let v : Int := Int.ofNat (ds.foldl (fun n c => n * 10 + (c.toNat - 48)) 0)
    some (if p.1 then -v else v)

/-- `parseInt(s, 10) || 0` as consumed by the handler: `NaN` falls back
to 0.  The model's timestamps are natural numbers — every timestamp the
program itself encodes into a token is one — so the parsed value is
taken as a natural number; a negative parse, possible only for a
hand-crafted token with a `-` sign and never produced by the program,
is collapsed to 0 here. -/
def jsParseIntOr0 (s : String) : Nat :=
  ((jsParseInt10 s).getD 0).toNat

/-- Splitting a character list at every occurrence of `|`, keeping
empty segments — the semantics of JavaScript `String.split` with the
single-character separator used for cursor tokens. -/
def splitPipeChars : List Char → List (List Char)
  | [] => [[]]
  | ch :: rest =>
    let r := splitPipeChars rest
    if ch = '|' then [] :: r
    else
      match r with
      | [] => [[ch]]
      | h :: t => (ch :: h) :: t

/-- JavaScript `s.split("|")` on a string. -/
def splitPipe (s : String) : List String :=
  (splitPipeChars s.toList).map (fun cs => String.mk cs)

/-- A timeline event as seen through the matrix-js-sdk accessors used by
the handler: `getType()` (collapsed to the Boolean `isMessage`, i.e.
whether the type is `m.room.message`), `getSender()`, `getRoomId()`,
`getId()`, `getTs()` and `getContent().body`.  `arrival` is the instant
(milliseconds from the start of the live-listening phase) at which the
event is delivered to a live listener; it is ignored by the catch-up
scan over buffered timelines. -/
structure MEvent where
  isMessage : Bool
  sender : String
  roomId : Option String
  eventId : Option String
  ts : Nat
  body : String
  arrival : Nat
deriving DecidableEq

/-- A room as used by the handler: its id (for `client.getRoom`), its
display `name`, and the events of its currently buffered live timeline
(`room.getLiveTimeline().getEvents()`). -/
structure Room where
  rid : String
  name : String
  events : List MEvent
deriving DecidableEq

/-- The slice of the matrix client consumed by the handler:
`getUserId()` and the set of tracked rooms (`getRooms` / `getRoom`). -/
structure Client where
  ownUserId : String
  rooms : List Room
deriving DecidableEq

/-- `client.getRoom(id)`: lookup of a tracked room by id. -/
def Client.getRoom (c : Client) (id : String) : Option Room :=
  c.rooms.find? (fun r => r.rid == id)

/-- The `CollectedMessage` record built by the handler. -/
structure CollectedMessage where
  roomId : String
  roomName : String
  sender : String
  body : String
  eventId : String
  timestamp : Nat
deriving DecidableEq

/-- Placeholder collected message (used only for `getLastD` on lists
proved nonempty; the handler indexes `collected[collected.length - 1]`
only under a nonemptiness check). -/
def defaultMsg : CollectedMessage := ⟨"", "", "", "", "", 0⟩

/-- The `status` strings of the JSON payload. -/
inductive Status where
  | messages_received
  | timeout
  | no_messages
deriving DecidableEq

/-- The JSON payload of a successful handler return: `status`,
`messageCount`, `messages` and the optional `since` continuation token
(`none` models the field being omitted from the object). -/
structure WaitResponse where
  status : Status
  messageCount : Nat
  messages : List CollectedMessage
  since : Option String
deriving DecidableEq

/-- The handler result together with the module-level fallback cursor
state (`lastSeenTimestamp`, `lastSeenEventId`) after the call. -/
structure HandlerResult where
  resp : WaitResponse
  fbTs : Nat
  fbId : Option String
deriving DecidableEq

/-- The tool arguments: optional room filter, `timeoutMs`, and the
optional `since` continuation token. -/
structure WaitArgs where
  roomId : Option String
  timeoutMs : Nat
  since : Option String
deriving DecidableEq

/-- The debounce window (`DEBOUNCE_MS = 500`). -/
def debounceMs : Nat := 500

/-- Continuation-token encoding: `` `${eventId}|${timestamp}` ``. -/
def encodeCursor (eid : String) (ts : Nat) : String :=
  eid ++ "|" ++ toString ts

/-- `updateInternalCursor(eventId, timestamp)` acting on the explicit
fallback-cursor state `(lastSeenTimestamp, lastSeenEventId)`. -/
def updateInternalCursor (eid : String) (ts : Nat) (fbTs : Nat) (fbId : Option String) :
    Nat × Option String :=
  if ts > fbTs || (decide (ts = fbTs) && (some eid != fbId)) then (ts, some eid) else (fbTs, fbId)

/-- Parsing of the `since` parameter (handler lines 84–95): a truthy
token of shape `eventId|timestamp` yields the pair, any other truthy
token yields no cursor, and an absent (or falsy) token falls back to
the internal cursor when `lastSeenTimestamp` is truthy. -/
def parseSince (since : Option String) (fbTs : Nat) (fbId : Option String) :
    Nat × Option String :=
  if truthyS since then
    match splitPipe (since.getD "") with
    | [a, b] => (jsParseIntOr0 b, some a)
    | _ => (0, none)
  else if fbTs ≠ 0 then (fbTs, fbId)
  else (0, none)

/-- The eligibility test of the catch-up scan (handler lines 120–121):
an event is kept unless `ts < sinceTimestamp`, or `ts === sinceTimestamp`
and its id equals `sinceEventId`. -/
def catchUpEligible (sinceTs : Nat) (sinceId : Option String) (ts : Nat)
    (eid : Option String) : Bool :=
  !(decide (ts < sinceTs)) && !(decide (ts = sinceTs) && (eid == sinceId))

/-- The eligibility test of the live listener (handler lines 179–180):
the same two checks, each additionally guarded by the truthiness of
`sinceTimestamp`. -/
def liveEligible (sinceTs : Nat) (sinceId : Option String) (ts : Nat)
    (eid : Option String) : Bool :=
  !(decide (sinceTs ≠ 0) && decide (ts < sinceTs)) &&
    !(decide (sinceTs ≠ 0) && decide (ts = sinceTs) && (eid == sinceId))

/-- The eligibility predicate as the specification words it:
`eligible(eid, ts, cid, cts) := ts > cts OR (ts == cts AND eid != cid)`.
Stated from the spec, for comparison with the tests above. -/
def eligibleSpec (eid : Option String) (ts : Nat) (cid : Option String)
    (cts : Nat) : Bool :=
  decide (ts > cts) || (decide (ts = cts) && (eid != cid))

/-- Event filter of the catch-up scan (handler lines 115–121): only
room-message events, not self-authored, passing `catchUpEligible`. -/
def catchUpAccept (ownId : String) (sinceTs : Nat) (sinceId : Option String)
    (e : MEvent) : Bool :=
  e.isMessage && e.sender != ownId && catchUpEligible sinceTs sinceId e.ts e.eventId

/-- The collected-message record built by the catch-up scan
(handler lines 124–131). -/
def catchUpMsg (room : Room) (e : MEvent) : CollectedMessage :=
  { roomId := jsOrOS e.roomId ""
    roomName := jsOrS room.name (jsOrOS e.roomId "")
    sender := e.sender
    body := e.body
    eventId := jsOrOS e.eventId ""
    timestamp := e.ts }

/-- The room set scanned by the catch-up phase (handler lines 107–109):
the single named room when `roomId` is truthy (dropped if unknown),
otherwise every tracked room. -/
def roomsToScan (c : Client) (rf : Option String) : List Room :=
  if truthyS rf then (c.getRoom (rf.getD "")).toList else c.rooms

/-- The catch-up scan (handler lines 111–133): all qualifying buffered
events of all scanned rooms, in room-then-timeline order. -/
def catchUpCollect (c : Client) (rf : Option String) (sinceTs : Nat)
    (sinceId : Option String) : List CollectedMessage :=
  (roomsToScan c rf).flatMap (fun room =>
    (room.events.filter (catchUpAccept c.ownUserId sinceTs sinceId)).map (catchUpMsg room))

/-- Event filter of the live listener (handler lines 166–180): only
room-message events, not self-authored, matching the room filter when
it is truthy, and passing `liveEligible`. -/
def liveAccept (ownId : String) (rf : Option String) (sinceTs : Nat)
    (sinceId : Option String) (e : MEvent) : Bool :=
  e.isMessage && e.sender != ownId &&
    !(truthyS rf && e.roomId != some (rf.getD "")) &&
    liveEligible sinceTs sinceId e.ts e.eventId

/-- The collected-message record built by the live listener
(handler lines 182–192); the room name comes from a `getRoom` lookup at
delivery time. -/
def liveMsg (c : Client) (e : MEvent) : CollectedMessage :=
  let room := match e.roomId with
    | some r => if r = "" then none else c.getRoom r
    | none => none
  { roomId := jsOrOS e.roomId ""
    roomName := jsOrOS (room.map Room.name) (jsOrOS e.roomId "")
    sender := e.sender
    body := e.body
    eventId := jsOrOS e.eventId ""
    timestamp := e.ts }

/-- The state of the live-listening phase: the collected batch, the
pending debounce deadline (`none` when no debounce timer is pending),
whether the overall timeout timer is still registered, whether the
timeline listener is still registered, and the resolution value
`(messages, timedOut)` once settled. -/
structure LiveState where
  collected : List CollectedMessage
  debounce : Option Nat
  timeoutActive : Bool
  listenerOn : Bool
  settled : Option (List CollectedMessage × Bool)
deriving DecidableEq

/-- State at the start of the live phase: nothing collected, no
debounce pending, the timeout timer armed (handler line 203) and the
timeline listener registered (handler line 214). -/
def initLiveState : LiveState :=
  { collected := [], debounce := none, timeoutActive := true,
    listenerOn := true, settled := none }

/-- The `cleanup` closure (handler lines 208–212): removes the timeline
listener and clears the timeout and debounce timers. -/
def cleanupState (s : LiveState) : LiveState :=
  { s with listenerOn := false, timeoutActive := false, debounce := none }

/-- The instant at which the call settles if no further event arrives:
the debounce deadline capped by the overall timeout `T`, or `T` when no
debounce is pending. -/
def settleDeadline (T : Nat) (s : LiveState) : Nat :=
  match s.debounce with
  | some d => min d T
  | none => T

/-- Firing of whichever timer is due first once no further event
arrives before the settle deadline.  A pending debounce strictly
earlier than the timeout resolves `(collected, timedOut := false)`
(handler lines 196–199); otherwise the timeout resolves
`(collected, timedOut := true)` (handler lines 203–206; on an exact
tie the timeout timer was registered first and fires first).  Both
paths run `cleanup` before resolving. -/
def fireTimer (T : Nat) (s : LiveState) : LiveState :=
  match s.debounce with
  | some d =>
    if d < T then { cleanupState s with settled := some (s.collected, false) }
    else { cleanupState s with settled := some (s.collected, true) }
  | none => { cleanupState s with settled := some (s.collected, true) }

/-- The `onEvent` callback (handler lines 165–200): an accepted event
is appended to the batch and the debounce timer is restarted to fire
`debounceMs` after the arrival; a rejected event leaves the state
unchanged. -/
def handleEvent (c : Client) (rf : Option String) (sinceTs : Nat)
    (sinceId : Option String) (e : MEvent) (s : LiveState) : LiveState :=
  if liveAccept c.ownUserId rf sinceTs sinceId e then
    { s with collected := s.collected ++ [liveMsg c e],
             debounce := some (e.arrival + debounceMs) }
  else s

/-- Execution of the live phase over a trace of timeline notifications
in arrival order: an event arriving strictly before the current settle
deadline is handed to `onEvent`; otherwise a timer has already fired,
the call has settled and the listener has been removed, so the rest of
the trace is irrelevant. -/
def runLiveAux (c : Client) (rf : Option String) (sinceTs : Nat)
    (sinceId : Option String) (T : Nat) : List MEvent → LiveState → LiveState
  | [], s => fireTimer T s
  | e :: rest, s =>
    if e.arrival < settleDeadline T s then
      runLiveAux c rf sinceTs sinceId T rest (handleEvent c rf sinceTs sinceId e s)
    else fireTimer T s

/-- The live-listening phase (the promise of handler lines 164–215). -/
def runLive (c : Client) (rf : Option String) (sinceTs : Nat)
    (sinceId : Option String) (T : Nat) (trace : List MEvent) : LiveState :=
  runLiveAux c rf sinceTs sinceId T trace initLiveState

/-- The part of the handler from the live-listening promise to the
return (lines 164–262): run the live phase, build the continuation
token from the last collected message (or echo a truthy supplied token
when nothing was collected), and shape the response. -/
def livePhase (c : Client) (rf : Option String) (sinceTs : Nat)
    (sinceId : Option String) (sinceRaw : Option String) (T : Nat)
    (fbTs : Nat) (fbId : Option String) (trace : List MEvent) : HandlerResult :=
  let st := runLive c rf sinceTs sinceId T trace
  let res := st.settled.getD ([], true)
  match res with
  | (msgs, timedOut) =>
    if msgs.isEmpty then
      let nextSince := if truthyS sinceRaw then sinceRaw else none
      ⟨⟨if timedOut then Status.timeout else Status.no_messages, 0, [], nextSince⟩, fbTs, fbId⟩
    else
      let last := msgs.getLastD defaultMsg
      let fb2 := updateInternalCursor last.eventId last.timestamp fbTs fbId
      ⟨⟨Status.messages_received, msgs.length, msgs,
        some (encodeCursor last.eventId last.timestamp)⟩, fb2.1, fb2.2⟩

/-- The comparison used by the catch-up sort
(`collected.sort((a, b) => a.timestamp - b.timestamp)`), as the
Boolean order fed to a stable sort: ascending by timestamp, ties kept
in collection order.  ECMAScript `Array.prototype.sort` is stable, and
a stable sort under a total preorder has a unique result, so
`mergeSort` with this order models it exactly. -/
def tsLe (a b : CollectedMessage) : Bool := a.timestamp ≤ b.timestamp

/-- The immediate catch-up return (handler lines 136–161): sort the
collected batch ascending by timestamp (stable), advance the internal
cursor to the last element and encode it as the continuation token. -/
def catchUpResponse (collected : List CollectedMessage) (fbTs : Nat)
    (fbId : Option String) : HandlerResult :=
  let sorted := collected.mergeSort tsLe
  let last := sorted.getLastD defaultMsg
  let fb2 := updateInternalCursor last.eventId last.timestamp fbTs fbId
  ⟨⟨Status.messages_received, sorted.length, sorted,
    some (encodeCursor last.eventId last.timestamp)⟩, fb2.1, fb2.2⟩

/-- The catch-up collection guarded by the truthiness of the parsed
cursor timestamp (handler line 106: the scan only runs when
`sinceTimestamp` is nonzero). -/
def catchUpMessages (c : Client) (args : WaitArgs) (fbTs : Nat)
    (fbId : Option String) : List CollectedMessage :=
  if (parseSince args.since fbTs fbId).1 ≠ 0 then
    catchUpCollect c args.roomId (parseSince args.since fbTs fbId).1
      (parseSince args.since fbTs fbId).2
  else []

/-- The full handler (`waitForMessagesHandler`) on its explicit state:
clamp the timeout, parse the cursor, run the catch-up scan when a
cursor position is available, return its sorted result immediately if
nonempty, otherwise run the live phase. -/
def waitForMessages (c : Client) (args : WaitArgs) (fbTs : Nat)
    (fbId : Option String) (trace : List MEvent) : HandlerResult :=
  if (catchUpMessages c args fbTs fbId).isEmpty then
    livePhase c args.roomId (parseSince args.since fbTs fbId).1
      (parseSince args.since fbTs fbId).2 args.since
      (max args.timeoutMs 1000) fbTs fbId trace
  else catchUpResponse (catchUpMessages c args fbTs fbId) fbTs fbId

/-- A malformed `since` token in the sense of the specification: not
exactly two `|`-separated fields, or a non-numeric timestamp field —
one on which JavaScript `parseInt` yields `NaN`.  Sign- or
whitespace-prefixed numbers such as `+5` are numeric, not malformed. -/
def malformedToken (s : String) : Bool :=
  match splitPipe s with
  | [_, b] => (jsParseInt10 b).isNone
  | _ => true

/-! Concrete scenarios used by counterexamples and witnesses. -/

/-- A client with one tracked room whose buffered timeline is empty. -/
def exClient : Client := ⟨"@me:hs", [⟨"!r:hs", "Room", []⟩]⟩

/-- A live room-message event with timestamp 10, id `a`, arriving at
100 ms into the live phase. -/
def evA : MEvent := ⟨true, "@alice:hs", some "!r:hs", some "a", 10, "hi", 100⟩

/-- A live room-message event with timestamp 5, id `b`, arriving at
200 ms — after `evA` in wall-clock arrival order, but with an earlier
origin timestamp. -/
def evB : MEvent := ⟨true, "@bob:hs", some "!r:hs", some "b", 5, "yo", 200⟩

/-- A live room-message event arriving at 600 ms, so that its 500 ms
debounce window (due 1100 ms) is still pending when a 1000 ms timeout
fires. -/
def evC : MEvent := ⟨true, "@alice:hs", some "!r:hs", some "c", 50, "late", 600⟩

/-- A self-authored live event (sender equals the session identity). -/
def evSelf : MEvent := ⟨true, "@me:hs", some "!r:hs", some "s", 7, "mine", 150⟩

/-- A client whose single room has one buffered room-message event
(timestamp 5, id `E`), for catch-up scenarios. -/
def cuClient : Client :=
  ⟨"@me:hs", [⟨"!r:hs", "Room",
    [⟨true, "@alice:hs", some "!r:hs", some "E", 5, "hello", 0⟩]⟩]⟩

end MatrixWait

namespace MatrixWait

/-! Helper lemmas about the eligibility tests. -/

theorem catchUpEligible_eq_spec (cts : Nat) (cid : Option String) (ts : Nat)
    (eid : Option String) : catchUpEligible cts cid ts eid = eligibleSpec eid ts cid cts := by
  rcases Nat.lt_trichotomy ts cts with h | h | h
  · simp [catchUpEligible, eligibleSpec, h, Nat.lt_asymm h, Nat.ne_of_lt h]
  · subst h
    simp [catchUpEligible, eligibleSpec, bne]
  · simp [catchUpEligible, eligibleSpec, h, Nat.lt_asymm h, Nat.not_lt.2 (Nat.le_of_lt h),
      (Nat.ne_of_lt h).symm]

theorem liveEligible_eq_catchUp (cts : Nat) (cid : Option String) (ts : Nat)
    (eid : Option String) (h : cts ≠ 0) :
    liveEligible cts cid ts eid = catchUpEligible cts cid ts eid := by
  simp [liveEligible, catchUpEligible, h]

theorem liveEligible_zero (cid : Option String) (ts : Nat) (eid : Option String) :
    liveEligible 0 cid ts eid = true := by
  simp [liveEligible]

/-! Helper lemmas about the live-phase state machine. -/

theorem fireTimer_final (T : Nat) (s : LiveState) :
    ∃ b, fireTimer T s =
      { collected := s.collected, debounce := none, timeoutActive := false,
        listenerOn := false, settled := some (s.collected, b) } := by
  unfold fireTimer cleanupState
  cases s.debounce with
  | none => exact ⟨true, rfl⟩
  | some d =>
    by_cases h : d < T
    · exact ⟨false, by simp [h]⟩
    · exact ⟨true, by simp [h]⟩

theorem runLiveAux_final (c : Client) (rf : Option String) (sTs : Nat) (sId : Option String)
    (T : Nat) : ∀ (trace : List MEvent) (s : LiveState),
    ∃ col b, runLiveAux c rf sTs sId T trace s =
      { collected := col, debounce := none, timeoutActive := false,
        listenerOn := false, settled := some (col, b) } := by
  intro trace
  induction trace with
  | nil =>
    intro s
    obtain ⟨b, hb⟩ := fireTimer_final T s
    exact ⟨s.collected, b, by rw [runLiveAux, hb]⟩
  | cons e rest ih =>
    intro s
    rw [runLiveAux]
    split
    · exact ih _
    · obtain ⟨b, hb⟩ := fireTimer_final T s
      exact ⟨s.collected, b, hb⟩

theorem runLive_final (c : Client) (rf : Option String) (sTs : Nat) (sId : Option String)
    (T : Nat) (trace : List MEvent) :
    ∃ col b, runLive c rf sTs sId T trace =
      { collected := col, debounce := none, timeoutActive := false,
        listenerOn := false, settled := some (col, b) } :=
  runLiveAux_final c rf sTs sId T trace initLiveState

theorem fireTimer_not_timedOut (T : Nat) (s : LiveState) (msgs : List CollectedMessage)
    (h : (fireTimer T s).settled = some (msgs, false)) :
    msgs = s.collected ∧ s.debounce.isSome = true := by
  unfold fireTimer cleanupState at h
  cases hd : s.debounce with
  | none => rw [hd] at h; simp at h
  | some d =>
    rw [hd] at h
    constructor
    · by_cases hlt : d < T
      · simp [hlt] at h; exact h.symm
      · simp [hlt] at h
    · rfl

theorem runLiveAux_not_timedOut (c : Client) (rf : Option String) (sTs : Nat)
    (sId : Option String) (T : Nat) : ∀ (trace : List MEvent) (s : LiveState),
    (s.debounce.isSome = true → s.collected ≠ []) →
    ∀ msgs, (runLiveAux c rf sTs sId T trace s).settled = some (msgs, false) → msgs ≠ [] := by
  intro trace
  induction trace with
  | nil =>
    intro s hinv msgs h
    rw [runLiveAux] at h
    obtain ⟨heq, hdeb⟩ := fireTimer_not_timedOut T s msgs h
    exact heq ▸ hinv hdeb
  | cons e rest ih =>
    intro s hinv msgs h
    rw [runLiveAux] at h
    split at h
    · refine ih _ ?_ msgs h
      unfold handleEvent
      split
      · intro _; simp
      · exact hinv
    · obtain ⟨heq, hdeb⟩ := fireTimer_not_timedOut T s msgs h
      exact heq ▸ hinv hdeb

theorem runLiveAux_collected_sublist (c : Client) (rf : Option String) (sTs : Nat)
    (sId : Option String) (T : Nat) : ∀ (trace : List MEvent) (s : LiveState),
    ∃ l, (runLiveAux c rf sTs sId T trace s).collected = s.collected ++ l ∧
      l.Sublist ((trace.filter (liveAccept c.ownUserId rf sTs sId)).map (liveMsg c)) := by
  intro trace
  induction trace with
  | nil =>
    intro s
    obtain ⟨b, hb⟩ := fireTimer_final T s
    rw [runLiveAux, hb]
    exact ⟨[], by simp⟩
  | cons e rest ih =>
    intro s
    rw [runLiveAux]
    split
    · by_cases hacc : liveAccept c.ownUserId rf sTs sId e = true
      · obtain ⟨l, hl, hsub⟩ := ih (handleEvent c rf sTs sId e s)
        refine ⟨liveMsg c e :: l, ?_, ?_⟩
        · rw [hl]
          unfold handleEvent
          rw [if_pos hacc]
          simp
        · rw [List.filter_cons_of_pos hacc, List.map_cons]
          exact List.Sublist.cons₂ _ hsub
      · obtain ⟨l, hl, hsub⟩ := ih (handleEvent c rf sTs sId e s)
        refine ⟨l, ?_, ?_⟩
        · rw [hl]
          unfold handleEvent
          rw [if_neg hacc]
        · rw [List.filter_cons_of_neg (by simpa using hacc)]
          exact hsub
    · obtain ⟨b, hb⟩ := fireTimer_final T s
      rw [hb]
      exact ⟨[], by simp⟩

/-! Helper lemmas connecting the phases of the handler. -/

theorem livePhase_eq (c : Client) (rf : Option String) (sTs : Nat) (sId : Option String)
    (raw : Option String) (T : Nat) (fbTs : Nat) (fbId : Option String) (trace : List MEvent) :
    ∃ msgs timedOut,
      (runLive c rf sTs sId T trace).settled = some (msgs, timedOut) ∧
      (runLive c rf sTs sId T trace).collected = msgs ∧
      livePhase c rf sTs sId raw T fbTs fbId trace =
        (if msgs.isEmpty then
          ⟨⟨if timedOut then Status.timeout else Status.no_messages, 0, [],
            if truthyS raw then raw else none⟩, fbTs, fbId⟩
        else
          ⟨⟨Status.messages_received, msgs.length, msgs,
            some (encodeCursor (msgs.getLastD defaultMsg).eventId
              (msgs.getLastD defaultMsg).timestamp)⟩,
            (updateInternalCursor (msgs.getLastD defaultMsg).eventId
              (msgs.getLastD defaultMsg).timestamp fbTs fbId).1,
            (updateInternalCursor (msgs.getLastD defaultMsg).eventId
              (msgs.getLastD defaultMsg).timestamp fbTs fbId).2⟩) := by
  obtain ⟨col, b, hb⟩ := runLive_final c rf sTs sId T trace
  refine ⟨col, b, by rw [hb], by rw [hb], ?_⟩
  unfold livePhase
  rw [hb]
  rfl

theorem waitForMessages_eq_livePhase (c : Client) (args : WaitArgs) (fbTs : Nat)
    (fbId : Option String) (trace : List MEvent) (h : catchUpMessages c args fbTs fbId = []) :
    waitForMessages c args fbTs fbId trace =
      livePhase c args.roomId (parseSince args.since fbTs fbId).1
        (parseSince args.since fbTs fbId).2 args.since
        (max args.timeoutMs 1000) fbTs fbId trace := by
  unfold waitForMessages
  rw [h]
  rfl

theorem waitForMessages_eq_catchUp (c : Client) (args : WaitArgs) (fbTs : Nat)
    (fbId : Option String) (trace : List MEvent) (h : catchUpMessages c args fbTs fbId ≠ []) :
    waitForMessages c args fbTs fbId trace =
      catchUpResponse (catchUpMessages c args fbTs fbId) fbTs fbId := by
  unfold waitForMessages
  rw [if_neg (by simpa using h)]

theorem mergeSort_ne_nil {l : List CollectedMessage} (h : l ≠ []) :
    l.mergeSort tsLe ≠ [] := by
  intro hnil
  apply h
  have hlen : (l.mergeSort tsLe).length = l.length := List.length_mergeSort l
  rw [hnil] at hlen
  exact List.length_eq_zero.1 hlen.symm

theorem pairwise_mergeSort_tsLe (l : List CollectedMessage) :
    (l.mergeSort tsLe).Pairwise (fun a b => a.timestamp ≤ b.timestamp) := by
  have hs : List.Pairwise (fun a b => tsLe a b = true) (l.mergeSort tsLe) :=
    List.sorted_mergeSort
      (fun a b d hab hbd => by
        simp only [tsLe, decide_eq_true_eq] at *
        omega)
      (fun a b => by
        simp only [tsLe, Bool.or_eq_true, decide_eq_true_eq]
        omega)
      l
  exact hs.imp (fun hab => by simpa [tsLe] using hab)

theorem catchUpCollect_sender (c : Client) (rf : Option String) (sTs : Nat)
    (sId : Option String) :
    ∀ m ∈ catchUpCollect c rf sTs sId, m.sender ≠ c.ownUserId := by
  intro m hm
  unfold catchUpCollect at hm
  simp only [List.mem_flatMap, List.mem_map, List.mem_filter] at hm
  obtain ⟨room, _, e, ⟨_, hacc⟩, rfl⟩ := hm
  unfold catchUpAccept at hacc
  simp only [Bool.and_eq_true, bne_iff_ne] at hacc
  exact hacc.1.2

theorem catchUpMessages_sender (c : Client) (args : WaitArgs) (fbTs : Nat)
    (fbId : Option String) :
    ∀ m ∈ catchUpMessages c args fbTs fbId, m.sender ≠ c.ownUserId := by
  intro m hm
  unfold catchUpMessages at hm
  split at hm
  · exact catchUpCollect_sender c args.roomId _ _ m hm
  · simp at hm

theorem liveCollected_sender (c : Client) (rf : Option String) (sTs : Nat)
    (sId : Option String) (T : Nat) (trace : List MEvent) :
    ∀ m ∈ (runLive c rf sTs sId T trace).collected, m.sender ≠ c.ownUserId := by
  obtain ⟨l, hl, hsub⟩ := runLiveAux_collected_sublist c rf sTs sId T trace initLiveState
  intro m hm
  rw [runLive] at hm
  rw [hl] at hm
  have hml : m ∈ l := by simpa [initLiveState] using hm
  have hmem := hsub.subset hml
  simp only [List.mem_map, List.mem_filter] at hmem
  obtain ⟨e, ⟨_, hacc⟩, rfl⟩ := hmem
  unfold liveAccept at hacc
  simp only [Bool.and_eq_true, bne_iff_ne] at hacc
  exact hacc.1.1.2

/-! Helper lemmas for malformed tokens and cursor-free live phases. -/

theorem parseSince_malformed (s : String) (fbTs : Nat) (fbId : Option String)
    (hne : s ≠ "") (hmal : malformedToken s = true) :
    ∃ sid, parseSince (some s) fbTs fbId = (0, sid) := by
  unfold parseSince
  rw [if_pos (by simpa [truthyS] using hne)]
  unfold malformedToken at hmal
  simp only [Option.getD_some]
  rcases hsp : splitPipe s with _ | ⟨a, _ | ⟨b, _ | ⟨x, rest⟩⟩⟩
  · exact ⟨none, rfl⟩
  · exact ⟨none, rfl⟩
  · rw [hsp] at hmal
    have hmal2 : (jsParseInt10 b).isNone = true := hmal
    have hb : jsParseIntOr0 b = 0 := by
      unfold jsParseIntOr0
      rw [Option.isNone_iff_eq_none.1 hmal2]
      rfl
    exact ⟨some a, by simp [hb]⟩
  · exact ⟨none, rfl⟩

theorem liveAccept_zero_sid (own : String) (rf : Option String) (sid : Option String)
    (e : MEvent) : liveAccept own rf 0 sid e = liveAccept own rf 0 none e := by
  simp [liveAccept, liveEligible]

theorem handleEvent_zero_sid (c : Client) (rf : Option String) (sid : Option String)
    (e : MEvent) (s : LiveState) :
    handleEvent c rf 0 sid e s = handleEvent c rf 0 none e s := by
  unfold handleEvent
  rw [liveAccept_zero_sid]

theorem runLiveAux_zero_sid (c : Client) (rf : Option String) (sid : Option String)
    (T : Nat) : ∀ (trace : List MEvent) (s : LiveState),
    runLiveAux c rf 0 sid T trace s = runLiveAux c rf 0 none T trace s := by
  intro trace
  induction trace with
  | nil => intro s; rfl
  | cons e rest ih =>
    intro s
    rw [runLiveAux, runLiveAux, handleEvent_zero_sid]
    split
    · exact ih _
    · rfl

theorem runLive_zero_sid (c : Client) (rf : Option String) (sid : Option String)
    (T : Nat) (trace : List MEvent) :
    runLive c rf 0 sid T trace = runLive c rf 0 none T trace := by
  unfold runLive
  exact runLiveAux_zero_sid c rf sid T trace initLiveState

theorem livePhase_zero_sid (c : Client) (rf : Option String) (sid : Option String)
    (raw : Option String) (T : Nat) (fbTs : Nat) (fbId : Option String)
    (trace : List MEvent) :
    livePhase c rf 0 sid raw T fbTs fbId trace =
      livePhase c rf 0 none raw T fbTs fbId trace := by
  unfold livePhase
  rw [runLive_zero_sid]

end MatrixWait

namespace MatrixWait

/-! The claims. -/

/-- C1 counterexample: for the cursor (cid = a, cts = 0) and the event
(eid = a, ts = 0), the live listener accepts the event although the
claimed formula `ts > cts OR (ts == cts AND eid != cid)` rejects it:
the truthiness guard on `sinceTimestamp` disables both checks at
timestamp 0, so the claimed if-and-only-if fails for the live test. -/
theorem c1_counterexample :
    liveEligible 0 (some "a") 0 (some "a") = true ∧
    eligibleSpec (some "a") 0 (some "a") 0 = false := by
  exact ⟨rfl, rfl⟩

/-- C1 (amended): the eligibility test of the catch-up scan accepts an
event iff `ts > cts OR (ts == cts AND eid != cid)` for every cursor,
and the test of the live listener agrees with this formula for every
cursor with nonzero timestamp; when the cursor timestamp is 0 the live
listener accepts every candidate event unconditionally. -/
theorem c1_amended :
    (∀ (cts : Nat) (cid : Option String) (ts : Nat) (eid : Option String),
      catchUpEligible cts cid ts eid = eligibleSpec eid ts cid cts) ∧
    (∀ (cts : Nat) (cid : Option String) (ts : Nat) (eid : Option String), cts ≠ 0 →
      liveEligible cts cid ts eid = eligibleSpec eid ts cid cts) ∧
    (∀ (cid : Option String) (ts : Nat) (eid : Option String),
      liveEligible 0 cid ts eid = true) := by
  refine ⟨catchUpEligible_eq_spec, ?_, liveEligible_zero⟩
  intro cts cid ts eid h
  rw [liveEligible_eq_catchUp cts cid ts eid h, catchUpEligible_eq_spec]

theorem c1_amended_witness :
    liveEligible 3 (some "a") 3 (some "a") = eligibleSpec (some "a") 3 (some "a") 3 :=
  c1_amended.2.1 3 (some "a") 3 (some "a") (by decide)

/-- C2 counterexample: live events arriving in the order (ts 10, id a)
then (ts 5, id b) yield status messages_received with a batch whose
maximum (timestamp, eventId) pair is (10, a), yet the returned cursor
encodes (5, b) — the last-arrived message, not the maximum. -/
theorem c2_counterexample :
    (waitForMessages exClient ⟨none, 1000, none⟩ 0 none [evA, evB]).resp.messages.map
      (fun m => (m.timestamp, m.eventId)) = [(10, "a"), (5, "b")] ∧
    (waitForMessages exClient ⟨none, 1000, none⟩ 0 none [evA, evB]).resp.since =
      some "b|5" := by
  exact ⟨rfl, rfl⟩

/-- C2 (amended): whenever a call returns status messages_received, the
batch is nonempty and the returned cursor encodes the (timestamp,
eventId) pair of the LAST message of the batch — which is a maximal
timestamp for the sorted catch-up path, but merely the last-arrived
message for the live path. -/
theorem c2_amended : ∀ (c : Client) (args : WaitArgs) (fbTs : Nat) (fbId : Option String)
    (trace : List MEvent),
    (waitForMessages c args fbTs fbId trace).resp.status = Status.messages_received →
    (waitForMessages c args fbTs fbId trace).resp.messages ≠ [] ∧
    (waitForMessages c args fbTs fbId trace).resp.since =
      some (encodeCursor
        (((waitForMessages c args fbTs fbId trace).resp.messages).getLastD defaultMsg).eventId
        (((waitForMessages c args fbTs fbId trace).resp.messages).getLastD defaultMsg).timestamp) := by
  intro c args fbTs fbId trace hst
  by_cases hcu : catchUpMessages c args fbTs fbId = []
  · rw [waitForMessages_eq_livePhase c args fbTs fbId trace hcu] at hst ⊢
    obtain ⟨msgs, t, hset, hcol, heq⟩ :=
      livePhase_eq c args.roomId (parseSince args.since fbTs fbId).1
        (parseSince args.since fbTs fbId).2 args.since (max args.timeoutMs 1000) fbTs fbId trace
    rw [heq] at hst ⊢
    by_cases hemp : msgs.isEmpty
    · rw [if_pos hemp] at hst
      exfalso
      cases t <;> simp at hst
    · rw [if_neg hemp]
      exact ⟨by simpa using hemp, rfl⟩
  · rw [waitForMessages_eq_catchUp c args fbTs fbId trace hcu]
    exact ⟨by simpa [catchUpResponse] using mergeSort_ne_nil hcu, rfl⟩

theorem c2_amended_witness :
    (waitForMessages exClient ⟨none, 1000, none⟩ 0 none [evA]).resp.messages ≠ [] ∧
    (waitForMessages exClient ⟨none, 1000, none⟩ 0 none [evA]).resp.since =
      some (encodeCursor
        (((waitForMessages exClient ⟨none, 1000, none⟩ 0 none [evA]).resp.messages).getLastD
          defaultMsg).eventId
        (((waitForMessages exClient ⟨none, 1000, none⟩ 0 none [evA]).resp.messages).getLastD
          defaultMsg).timestamp) :=
  c2_amended exClient ⟨none, 1000, none⟩ 0 none [evA] (by decide)

/-- C3 counterexample: the live path returns messages in arrival order
without sorting, so the batch with timestamps [10, 5] is not sorted
ascending by timestamp. -/
theorem c3_counterexample :
    (waitForMessages exClient ⟨none, 1000, none⟩ 0 none [evA, evB]).resp.messages.map
      (fun m => m.timestamp) = [10, 5] ∧
    ¬ List.Pairwise (fun a b : Nat => a ≤ b)
      ((waitForMessages exClient ⟨none, 1000, none⟩ 0 none [evA, evB]).resp.messages.map
        (fun m => m.timestamp)) := by
  constructor
  · rfl
  · decide

/-- C3 (amended): a batch returned by the catch-up path is sorted
ascending (non-strictly: equal timestamps may repeat) by timestamp; a
batch collected by the live path is in arrival order — a sublist of the
accepted events of the trace in their arrival order — and is not
necessarily sorted by timestamp. -/
theorem c3_amended :
    (∀ (c : Client) (args : WaitArgs) (fbTs : Nat) (fbId : Option String)
      (trace : List MEvent),
      catchUpMessages c args fbTs fbId ≠ [] →
      List.Pairwise (fun a b => a.timestamp ≤ b.timestamp)
        (waitForMessages c args fbTs fbId trace).resp.messages) ∧
    (∀ (c : Client) (rf : Option String) (sTs : Nat) (sId : Option String) (T : Nat)
      (trace : List MEvent),
      ((runLive c rf sTs sId T trace).collected).Sublist
        ((trace.filter (liveAccept c.ownUserId rf sTs sId)).map (liveMsg c))) := by
  constructor
  · intro c args fbTs fbId trace h
    rw [waitForMessages_eq_catchUp c args fbTs fbId trace h]
    simp only [catchUpResponse]
    exact pairwise_mergeSort_tsLe (catchUpMessages c args fbTs fbId)
  · intro c rf sTs sId T trace
    obtain ⟨l, hl, hsub⟩ := runLiveAux_collected_sublist c rf sTs sId T trace initLiveState
    rw [runLive, hl]
    simpa [initLiveState] using hsub

theorem c3_amended_witness :
    List.Pairwise (fun a b => a.timestamp ≤ b.timestamp)
      (waitForMessages cuClient ⟨none, 1000, none⟩ 3 (some "x") []).resp.messages ∧
    ((runLive exClient none 0 none 1000 [evA, evB]).collected).Sublist
      (([evA, evB].filter (liveAccept exClient.ownUserId none 0 none)).map (liveMsg exClient)) :=
  ⟨c3_amended.1 cuClient ⟨none, 1000, none⟩ 3 (some "x") [] (by decide),
   c3_amended.2 exClient none 0 none 1000 [evA, evB]⟩

/-- C4 counterexample: the caller supplies the (degenerate) since token
`""`; zero messages are produced, yet the response omits the since
field instead of echoing the supplied token back, because the empty
string is falsy in JavaScript. -/
theorem c4_counterexample :
    (waitForMessages exClient ⟨none, 1000, some ""⟩ 0 none []).resp.messages = [] ∧
    (waitForMessages exClient ⟨none, 1000, some ""⟩ 0 none []).resp.since = none := by
  exact ⟨rfl, rfl⟩

/-- C4 (amended): when a call produces zero messages, the response
echoes the supplied since token unchanged if that token is truthy
(non-empty), and omits the since field when no token — or the empty
string token — was supplied. -/
theorem c4_amended : ∀ (c : Client) (args : WaitArgs) (fbTs : Nat) (fbId : Option String)
    (trace : List MEvent),
    (waitForMessages c args fbTs fbId trace).resp.messages = [] →
    (waitForMessages c args fbTs fbId trace).resp.since =
      (if truthyS args.since then args.since else none) := by
  intro c args fbTs fbId trace hmsg
  by_cases hcu : catchUpMessages c args fbTs fbId = []
  · rw [waitForMessages_eq_livePhase c args fbTs fbId trace hcu] at hmsg ⊢
    obtain ⟨msgs, t, hset, hcol, heq⟩ :=
      livePhase_eq c args.roomId (parseSince args.since fbTs fbId).1
        (parseSince args.since fbTs fbId).2 args.since (max args.timeoutMs 1000) fbTs fbId trace
    rw [heq] at hmsg ⊢
    by_cases hemp : msgs.isEmpty
    · rw [if_pos hemp]
    · rw [if_neg hemp] at hmsg
      exact absurd (List.isEmpty_iff.2 hmsg) (by simpa using hemp)
  · rw [waitForMessages_eq_catchUp c args fbTs fbId trace hcu] at hmsg
    simp only [catchUpResponse] at hmsg
    exact absurd hmsg (mergeSort_ne_nil hcu)

theorem c4_amended_witness :
    (waitForMessages exClient ⟨none, 1000, some "tok|5"⟩ 0 none []).resp.since =
      (if truthyS (some "tok|5") then some "tok|5" else none) :=
  c4_amended exClient ⟨none, 1000, some "tok|5"⟩ 0 none [] (by decide)

/-- C5 counterexample: a single message arrives at 600 ms with a
1000 ms timeout, so its debounce (due at 1100 ms) is still pending when
the overall timeout fires first — yet one message HAS been collected by
then, and the call resolves as messages_received with a nonempty batch,
not as a timeout with an empty one. -/
theorem c5_counterexample :
    (runLive exClient none 0 none 1000 [evC]).settled =
      some ([liveMsg exClient evC], true) ∧
    (waitForMessages exClient ⟨none, 1000, none⟩ 0 none [evC]).resp.status =
      Status.messages_received ∧
    (waitForMessages exClient ⟨none, 1000, none⟩ 0 none [evC]).resp.messages ≠ [] := by
  refine ⟨rfl, rfl, by decide⟩

/-- C5 (amended): if the overall timeout fires before any debounce
settle, the call resolves with whatever has been collected so far:
status timeout with an empty batch when no message was collected, and
status messages_received with the collected messages otherwise. -/
theorem c5_amended : ∀ (c : Client) (rf : Option String) (sTs : Nat) (sId : Option String)
    (raw : Option String) (T : Nat) (fbTs : Nat) (fbId : Option String)
    (trace : List MEvent) (msgs : List CollectedMessage),
    (runLive c rf sTs sId T trace).settled = some (msgs, true) →
    ((msgs = [] →
        (livePhase c rf sTs sId raw T fbTs fbId trace).resp.status = Status.timeout ∧
        (livePhase c rf sTs sId raw T fbTs fbId trace).resp.messages = []) ∧
     (msgs ≠ [] →
        (livePhase c rf sTs sId raw T fbTs fbId trace).resp.status = Status.messages_received ∧
        (livePhase c rf sTs sId raw T fbTs fbId trace).resp.messages = msgs)) := by
  intro c rf sTs sId raw T fbTs fbId trace msgs h
  obtain ⟨msgs', t', hset, hcol, heq⟩ := livePhase_eq c rf sTs sId raw T fbTs fbId trace
  rw [h] at hset
  simp only [Option.some.injEq, Prod.mk.injEq] at hset
  obtain ⟨hm, ht⟩ := hset
  subst hm
  subst ht
  rw [heq]
  constructor
  · intro hnil
    rw [if_pos (List.isEmpty_iff.2 hnil)]
    exact ⟨rfl, rfl⟩
  · intro hne
    rw [if_neg (by simpa [List.isEmpty_iff] using hne)]
    exact ⟨rfl, rfl⟩

theorem c5_amended_witness :
    (livePhase exClient none 0 none none 1000 0 none []).resp.status = Status.timeout ∧
    (livePhase exClient none 0 none none 1000 0 none []).resp.messages = [] :=
  (c5_amended exClient none 0 none none 1000 0 none [] [] (by decide)).1 rfl

/-- C6: no message in any returned batch — whether produced by the
catch-up scan or by the live listener — has the session's own user
identity as its sender. -/
theorem c6 : ∀ (c : Client) (args : WaitArgs) (fbTs : Nat) (fbId : Option String)
    (trace : List MEvent),
    ((waitForMessages c args fbTs fbId trace).resp.messages.all
      (fun m => m.sender != c.ownUserId)) = true := by
  intro c args fbTs fbId trace
  rw [List.all_eq_true]
  intro m hm
  rw [bne_iff_ne]
  by_cases hcu : catchUpMessages c args fbTs fbId = []
  · rw [waitForMessages_eq_livePhase c args fbTs fbId trace hcu] at hm
    obtain ⟨msgs, t, hset, hcol, heq⟩ :=
      livePhase_eq c args.roomId (parseSince args.since fbTs fbId).1
        (parseSince args.since fbTs fbId).2 args.since (max args.timeoutMs 1000) fbTs fbId trace
    rw [heq] at hm
    by_cases hemp : msgs.isEmpty
    · rw [if_pos hemp] at hm
      simp at hm
    · rw [if_neg hemp] at hm
      simp only at hm
      exact liveCollected_sender c args.roomId _ _ _ trace m (hcol ▸ hm)
  · rw [waitForMessages_eq_catchUp c args fbTs fbId trace hcu] at hm
    simp only [catchUpResponse] at hm
    rw [List.mem_mergeSort] at hm
    exact catchUpMessages_sender c args fbTs fbId m hm

/-- C7 counterexample: with the internal fallback cursor set to
timestamp 3 and a buffered event at timestamp 5, the call with the
malformed token `garbage` skips the catch-up scan and times out with
the malformed token echoed back, while the call with no token uses the
fallback cursor and returns the buffered message immediately — so a
malformed token does NOT behave as if no token had been supplied. -/
theorem c7_counterexample :
    (waitForMessages cuClient ⟨none, 1000, some "garbage"⟩ 3 (some "x") []).resp.status =
      Status.timeout ∧
    (waitForMessages cuClient ⟨none, 1000, some "garbage"⟩ 3 (some "x") []).resp.since =
      some "garbage" ∧
    (waitForMessages cuClient ⟨none, 1000, none⟩ 3 (some "x") []).resp.status =
      Status.messages_received := by
  exact ⟨rfl, rfl, rfl⟩

/-- C7 (amended): a non-empty malformed since token (wrong shape or
non-numeric timestamp field) parses to the empty cursor position: the
catch-up scan is skipped, the live listener applies no cursor
filtering, and the request never fails — but the call is NOT equivalent
to supplying no token, since the internal fallback cursor is bypassed
and an empty result echoes the malformed token back. -/
theorem c7_amended : ∀ (c : Client) (rf : Option String) (t fbTs : Nat)
    (fbId : Option String) (trace : List MEvent) (s : String),
    s ≠ "" → malformedToken s = true →
    waitForMessages c ⟨rf, t, some s⟩ fbTs fbId trace =
      livePhase c rf 0 none (some s) (max t 1000) fbTs fbId trace := by
  intro c rf t fbTs fbId trace s hne hmal
  obtain ⟨sid, hp⟩ := parseSince_malformed s fbTs fbId hne hmal
  have hcu : catchUpMessages c ⟨rf, t, some s⟩ fbTs fbId = [] := by
    unfold catchUpMessages
    simp only [hp]
    simp
  rw [waitForMessages_eq_livePhase c ⟨rf, t, some s⟩ fbTs fbId trace hcu]
  simp only [hp]
  exact livePhase_zero_sid c rf sid (some s) (max t 1000) fbTs fbId trace

theorem c7_amended_witness :
    waitForMessages cuClient ⟨none, 1000, some "a|b|c"⟩ 3 (some "x") [] =
      livePhase cuClient none 0 none (some "a|b|c") (max 1000 1000) 3 (some "x") [] :=
  c7_amended cuClient none 1000 3 (some "x") [] "a|b|c" (by decide) (by decide)

/-- C8: (a) when the guarded catch-up scan finds at least one
qualifying event, the call returns status messages_received whose batch
is exactly the scanned collection (up to the sort), and the result does
not depend on the live trace — the live listener is never engaged;
(b) when no since token is supplied and there is no fallback state, the
call is exactly the live phase run with the empty cursor — the catch-up
scan is skipped. -/
theorem c8 :
    (∀ (c : Client) (args : WaitArgs) (fbTs : Nat) (fbId : Option String)
      (trace : List MEvent),
      catchUpMessages c args fbTs fbId ≠ [] →
      (waitForMessages c args fbTs fbId trace).resp.status = Status.messages_received ∧
      ((waitForMessages c args fbTs fbId trace).resp.messages).Perm
        (catchUpMessages c args fbTs fbId) ∧
      ∀ (trace' : List MEvent),
        waitForMessages c args fbTs fbId trace' = waitForMessages c args fbTs fbId trace) ∧
    (∀ (c : Client) (args : WaitArgs) (fbTs : Nat) (fbId : Option String)
      (trace : List MEvent),
      args.since = none → fbTs = 0 →
      waitForMessages c args fbTs fbId trace =
        livePhase c args.roomId 0 none none (max args.timeoutMs 1000) fbTs fbId trace) := by
  constructor
  · intro c args fbTs fbId trace h
    rw [waitForMessages_eq_catchUp c args fbTs fbId trace h]
    refine ⟨rfl, ?_, fun trace' => by
      rw [waitForMessages_eq_catchUp c args fbTs fbId trace' h]⟩
    simp only [catchUpResponse]
    exact List.mergeSort_perm (catchUpMessages c args fbTs fbId) tsLe
  · intro c args fbTs fbId trace hs hfb
    have hp : parseSince args.since fbTs fbId = (0, none) := by
      rw [hs]
      unfold parseSince
      rw [if_neg (by simp [truthyS])]
      rw [if_neg (by simp [hfb])]
    have hcu : catchUpMessages c args fbTs fbId = [] := by
      unfold catchUpMessages
      simp only [hp]
      simp
    rw [waitForMessages_eq_livePhase c args fbTs fbId trace hcu, hs]
    rw [hs] at hp
    rw [hp]

theorem c8_witness :
    (waitForMessages cuClient ⟨none, 1000, none⟩ 3 (some "x") []).resp.status =
      Status.messages_received ∧
    ((waitForMessages cuClient ⟨none, 1000, none⟩ 3 (some "x") []).resp.messages).Perm
      (catchUpMessages cuClient ⟨none, 1000, none⟩ 3 (some "x")) ∧
    waitForMessages exClient ⟨none, 1000, none⟩ 0 none [evA] =
      livePhase exClient none 0 none none (max 1000 1000) 0 none [evA] :=
  ⟨(c8.1 cuClient ⟨none, 1000, none⟩ 3 (some "x") [] (by decide)).1,
   (c8.1 cuClient ⟨none, 1000, none⟩ 3 (some "x") [] (by decide)).2.1,
   c8.2 exClient ⟨none, 1000, none⟩ 0 none [evA] rfl rfl⟩

/-- C9: the live phase starts with the timeline listener registered and
the timeout timer armed, and on every settle path (debounce and timeout
alike) it ends with the listener unregistered, both the debounce and
timeout timers cancelled, and a resolution value produced — nothing
outlives the call's resolution. -/
theorem c9 : ∀ (c : Client) (rf : Option String) (sTs : Nat) (sId : Option String)
    (T : Nat) (trace : List MEvent),
    initLiveState.listenerOn = true ∧ initLiveState.timeoutActive = true ∧
    (runLive c rf sTs sId T trace).listenerOn = false ∧
    (runLive c rf sTs sId T trace).timeoutActive = false ∧
    (runLive c rf sTs sId T trace).debounce = none ∧
    ∃ res, (runLive c rf sTs sId T trace).settled = some res := by
  intro c rf sTs sId T trace
  obtain ⟨col, b, hb⟩ := runLive_final c rf sTs sId T trace
  rw [hb]
  exact ⟨rfl, rfl, rfl, rfl, rfl, (col, b), rfl⟩

/-- C10: the debounce timer is armed only after at least one message
has been collected, so a live phase that produced zero messages must
have settled through the timeout; consequently every zero-message
response has status timeout, and the status no_messages declared in the
output contract is never produced by any execution of the handler. -/
theorem c10 : ∀ (c : Client) (args : WaitArgs) (fbTs : Nat) (fbId : Option String)
    (trace : List MEvent),
    (waitForMessages c args fbTs fbId trace).resp.status ≠ Status.no_messages ∧
    ((waitForMessages c args fbTs fbId trace).resp.messages = [] →
      (waitForMessages c args fbTs fbId trace).resp.status = Status.timeout) := by
  intro c args fbTs fbId trace
  by_cases hcu : catchUpMessages c args fbTs fbId = []
  · rw [waitForMessages_eq_livePhase c args fbTs fbId trace hcu]
    obtain ⟨msgs, t, hset, hcol, heq⟩ :=
      livePhase_eq c args.roomId (parseSince args.since fbTs fbId).1
        (parseSince args.since fbTs fbId).2 args.since (max args.timeoutMs 1000) fbTs fbId trace
    rw [heq]
    by_cases hemp : msgs.isEmpty
    · rw [if_pos hemp]
      have ht : t = true := by
        cases t with
        | true => rfl
        | false =>
          exfalso
          rw [runLive] at hset
          exact runLiveAux_not_timedOut c args.roomId _ _ _ trace initLiveState
            (by simp [initLiveState]) msgs hset (List.isEmpty_iff.1 hemp)
      rw [ht]
      exact ⟨by simp, fun _ => by simp⟩
    · rw [if_neg hemp]
      refine ⟨by simp, fun habs => absurd (List.isEmpty_iff.2 habs) (by simpa using hemp)⟩
  · rw [waitForMessages_eq_catchUp c args fbTs fbId trace hcu]
    refine ⟨by simp [catchUpResponse], fun habs => ?_⟩
    simp only [catchUpResponse] at habs
    exact absurd habs (mergeSort_ne_nil hcu)

theorem c10_witness :
    (waitForMessages exClient ⟨none, 1000, none⟩ 0 none []).resp.status ≠
      Status.no_messages ∧
    (waitForMessages exClient ⟨none, 1000, none⟩ 0 none []).resp.status = Status.timeout :=
  ⟨(c10 exClient ⟨none, 1000, none⟩ 0 none []).1,
   (c10 exClient ⟨none, 1000, none⟩ 0 none []).2 (by decide)⟩

end MatrixWait
